import Mathlib

/-
  Verification development for the SCMS_Simulator repository (NetLogo CIES 9.1
  replication): a mutual credit-insurance and behavioral-rating simulation.

  The definitions below are a shallow embedding of the Python sources:
    src/nlogo/models/customer.py   (class Customer)
    src/nlogo/models/bank.py       (class Bank)
    src/nlogo/models/fund.py       (class Fund)
    src/nlogo/simulation/world.py  (class World)
  Floating-point numbers are embedded as rationals; Python ints as Int or Nat.
  The process-wide generator of the Python random module is embedded as an
  explicit deterministic stream owned by the run (a linear-congruential state):
  the embedding preserves the seeding discipline and determinism of the draw
  sequence, not the exact Mersenne-Twister values.
-/

set_option maxHeartbeats 1000000

namespace SCMS

/-- Truncation toward zero, as the Python int() conversion applied to a
numeric value in customer.py setup_financing. -/
def pyTrunc (q : ℚ) : Int :=
  if 0 ≤ q then ⌊q⌋ else ⌈q⌉

/-- The Python round() builtin on a rational: round half to even. -/
def pyRound (q : ℚ) : Int :=
  let f := ⌊q⌋
  let r := q - (f : ℚ)
  if r < 1/2 then f
  else if 1/2 < r then f + 1
  else if f % 2 = 0 then f else f + 1

/-- State of the pseudo-random stream. Stands in for the process-wide state of
the Python random module; each embedded run owns one stream. -/
structure Rng where
  state : Nat
deriving DecidableEq

/-- Seeding, as random.seed(n) in World.set_random_seed. -/
def rngOfSeed (seed : Nat) : Rng :=
  ⟨(seed + 988463) % 2 ^ 64⟩

/-- One raw draw of the stream (a 31-bit value and the advanced state). -/
def rngNext (r : Rng) : Nat × Rng :=
  let s := (6364136223846793005 * r.state + 1442695040888963407) % 2 ^ 64
  ((s / 2 ^ 33) % 2 ^ 31, ⟨s⟩)

/-- random.randint(lo, hi): uniform integer in [lo, hi]. The Python call
requires lo ≤ hi; the embedding is total and returns lo when hi < lo. -/
def randint (lo hi : Int) (r : Rng) : Int × Rng :=
  let (n, r1) := rngNext r
  if hi < lo then (lo, r1) else (lo + (n : Int) % (hi - lo + 1), r1)

/-- random.uniform(0, 1): a rational in [0, 1). -/
def uniform01 (r : Rng) : ℚ × Rng :=
  let (n, r1) := rngNext r
  ((n : ℚ) / (2 ^ 31 : ℚ), r1)

/-- The Customer (patch) agent of customer.py, field for field. Defaults are
the values set by Customer.__init__. -/
structure Customer where
  i : Nat
  x : Nat
  y : Nat
  installment : ℚ := 0
  duration : Int := 0
  debt : ℚ := 0
  cum_debt : ℚ := 0
  gross_debt : ℚ := 0
  performing_debt : ℚ := 0
  non_performing_debt : ℚ := 0
  patch_month : Int := 1
  financing_round : Int := 1
  count_new_debt : Int := 0
  patch_new_debt : ℚ := 0
  status : Int := 0
  shock : Int := 0
  insolvency_fraction : ℚ := 0
  paid_contribution : ℚ := 0
  cum_paid_contribution : ℚ := 0
  cumulative_installment : ℚ := 0
  unpaid_contribution : ℚ := 0
  paid_installment : ℚ := 0
  cum_paid_installment : ℚ := 0
  deficit : ℚ := 0
  cumulative_deficit : ℚ := 0
  balance : ℚ := 0
  compensation_share : ℚ := 0
  compensation_received : ℚ := 0
  cum_compensation : ℚ := 0
  additional_compensation : ℚ := 0
  share : ℚ := 0
  d : Int := 0
  p_day : Int := 0
  day : Int := 0
  b_risk : ℚ := 0
  lamda : ℚ := 0
  alpha_1 : ℚ := 0
  alpha_2 : ℚ := 0
  d_contribution : ℚ := 0
  std_contribution : ℚ := 0
  std_premium : ℚ := 0
  points : Int := 0
  membership : Int := 1
  on_time_payment : Int := 0
  late_payment : Int := 0
  neighbors : List Nat := []
deriving DecidableEq

/-- Customer.__init__(customer_id, x, y). -/
def Customer.init (i x y : Nat) : Customer :=
  { i := i, x := x, y := y }

/-- A placeholder customer used as the default of list lookups. -/
def cDummy : Customer := Customer.init 0 0 0

/-- Customer.setup_financing. -/
def Customer.setup_financing (min_inst max_inst : ℚ) (min_per max_per : Int)
    (c : Customer) (r : Rng) : Customer × Rng :=
  let d1 := randint 0 (pyTrunc (max_inst - min_inst)) r
  let d2 := randint 0 (max_per - min_per) d1.2
  let a := d1.1
  let b := d2.1
  let r2 := d2.2
  let inst := min_inst + (a : ℚ)
  let dur := min_per + b
  let dbt := inst * (dur : ℚ)
  ({ c with installment := inst, duration := dur, debt := dbt,
            cum_debt := c.cum_debt + dbt,
            gross_debt := inst * (dur : ℚ),
            performing_debt := dbt }, r2)

/-- Customer.setup_payment_day. -/
def Customer.setup_payment_day (max_day : Int) (c : Customer) (r : Rng) :
    Customer × Rng :=
  let dr := randint 1 max_day r
  let dv := dr.1
  ({ c with d := dv, p_day := dv, day := dv, b_risk := (dv : ℚ) / 30 }, dr.2)

/-- Customer.setup_contribution. -/
def Customer.setup_contribution (base_rate premium_increment : ℚ)
    (c : Customer) : Customer :=
  let dcon := base_rate / 100 + (premium_increment / 100) * ((max (c.d - 1) 1 : Int) : ℚ)
  if 0 < base_rate then
    { c with d_contribution := dcon,
             std_contribution := (dcon / (base_rate / 100)) / 30 }
  else
    { c with d_contribution := dcon, std_contribution := 0 }

/-- Customer.setup_peer_effect. -/
def Customer.setup_peer_effect (peer_effect randomness : ℚ) (c : Customer)
    (r : Rng) : Customer × Rng :=
  let var := randomness / 100
  let minL := (1 - var) * (peer_effect / 100)
  let maxL := (1 + var) * (peer_effect / 100)
  let ur := uniform01 r
  let lam := minL + ur.1 * (maxL - minL)
  ({ c with lamda := max 0 (min 1 lam) }, ur.2)

/-- Customer.setup_response. -/
def Customer.setup_response (p_day_response premium_response randomness : ℚ)
    (c : Customer) (r : Rng) : Customer × Rng :=
  let var := randomness / 100
  let minA1 := (1 - var) * p_day_response
  let maxA1 := (1 + var) * p_day_response
  let minA2 := (1 - var) * premium_response
  let maxA2 := (1 + var) * premium_response
  let u1 := uniform01 r
  let u2 := uniform01 u1.2
  ({ c with alpha_1 := minA1 + u1.1 * (maxA1 - minA1),
            alpha_2 := minA2 + u2.1 * (maxA2 - minA2) }, u2.2)

/-- Customer.setup_membership. -/
def Customer.setup_membership (c : Customer) : Customer :=
  { c with points := 100 - (c.d - 1), on_time_payment := 0,
           late_payment := 0, membership := 1 }

/-- Customer.calculate_payment_day. -/
def Customer.calculate_payment_day (max_day : Int) (c : Customer) (r : Rng) :
    Customer × Rng :=
  let minP := max (c.d - 1) 1
  let maxP := c.d + 1
  let kr := randint 0 (maxP - minP) r
  let p := minP + kr.1
  ({ c with p_day := if max_day + 1 < p then max_day + 1 else p }, kr.2)

/-- Customer.calculate_membership. -/
def Customer.calculate_membership (max_day : Int) (c : Customer) : Customer :=
  let pts := 100 - (c.day - 1)
  let c1 :=
    if 100 - (max_day - 2) ≤ pts then
      { c with points := pts, on_time_payment := c.on_time_payment + 1 }
    else
      { c with points := pts, late_payment := c.late_payment + 1 }
  if 3 < c1.late_payment then { c1 with membership := 0 } else c1

/-- The d2 term of Customer.calculate_rating as the source computes it: the
sum of the behavioral risks of the active neighbors divided by the total
number of neighbors, falling back to the customer's own behavioral risk only
when the neighbor list itself is empty. -/
def codePeerTerm (nbrs : List (ℚ × Int)) (self : ℚ) : ℚ :=
  if nbrs = [] then self
  else ((nbrs.filter (fun q => q.2 == 1)).map Prod.fst).sum / (nbrs.length : ℚ)

/-- Customer.calculate_rating. The neighbor argument carries the pairs
(b_risk, membership) of the neighbors as read from the arena at call time,
mirroring the live references of the Python object graph. -/
def Customer.calculate_rating (max_day : Int) (nbrs : List (ℚ × Int))
    (c : Customer) (r : Rng) : Customer × Rng :=
  if c.duration < c.patch_month ∨ c.membership = 0 then (c, r) else
  let cp := c.calculate_payment_day max_day r
  let c1 := cp.1
  let d1 := c1.alpha_1 * ((c1.p_day : ℚ) / 30) - c1.alpha_2 * c1.std_premium
  let d2 := codePeerTerm nbrs c1.b_risk
  let br0 := (1 - c1.lamda) * d1 + c1.lamda * d2
  let br := if br0 < 1/30 then 1/30 else br0
  let c2 := { c1 with b_risk := br, day := pyRound (br * 30) }
  (c2.calculate_membership max_day, cp.2)

/-- Customer.calculate_premium. -/
def Customer.calculate_premium (base_rate premium_increment : ℚ)
    (c : Customer) : Customer :=
  if c.duration < c.patch_month ∨ c.membership = 0 then c else
  let dcon := base_rate / 100 + (premium_increment / 100) * ((c.day - 1 : Int) : ℚ)
  if 0 < base_rate then
    let stdc := (dcon / (base_rate / 100)) / 30
    { c with d_contribution := dcon, std_contribution := stdc,
             std_premium := stdc - 1/30 }
  else
    { c with d_contribution := 0, std_contribution := 0, std_premium := 0 }

/-- Customer.calculate_shock. -/
def Customer.calculate_shock (insolvency_risk unpaid_fraction randomness : ℚ)
    (c : Customer) (r : Rng) : Customer × Rng :=
  if c.duration < c.patch_month ∨ c.membership = 0 then (c, r) else
  let sr := randint 1 100 r
  if (sr.1 : ℚ) ≤ insolvency_risk then
    let var := randomness / 100
    let minF := (1 - var) * (unpaid_fraction / 100)
    let maxF := (1 + var) * (unpaid_fraction / 100)
    let ur := uniform01 sr.2
    let f := minF + ur.1 * (maxF - minF)
    ({ c with shock := 1, insolvency_fraction := if 1 < f then 1 else f }, ur.2)
  else
    ({ c with shock := 0, insolvency_fraction := 0 }, sr.2)

/-- Customer.calculate_contribution. -/
def Customer.calculate_contribution (base_rate : ℚ) (incentive_system : Bool)
    (c : Customer) : Customer :=
  if c.patch_month ≤ c.duration ∧ c.membership = 1 then
    let prev := (1 - (c.shock : ℚ) * c.insolvency_fraction) * c.installment
    let dcon := if incentive_system then c.d_contribution else base_rate / 100
    let paid := dcon * prev
    { c with d_contribution := dcon, paid_contribution := paid,
             cumulative_installment := c.cumulative_installment + c.installment,
             cum_paid_contribution := c.cum_paid_contribution + paid }
  else
    { c with paid_contribution := 0 }

/-- The first guarded block of Customer.calculate_insolvency (the active
case computing deficit and paid installment). -/
def Customer.insolvencyActiveBlock (c : Customer) : Customer :=
  if c.patch_month ≤ c.duration ∧ c.membership = 1 then
    let df := (c.shock : ℚ) * c.insolvency_fraction * c.installment
    let paid := c.installment - df
    { c with deficit := df, cumulative_deficit := c.cumulative_deficit + df,
             paid_installment := paid,
             cum_paid_installment := c.cum_paid_installment + paid }
  else c

/-- The second guarded block of Customer.calculate_insolvency (zeroing the
period amounts of a past-term or expelled customer). -/
def Customer.insolvencyInactiveBlock (c : Customer) : Customer :=
  if c.duration < c.patch_month ∨ c.membership = 0 then
    { c with deficit := 0, paid_installment := 0 }
  else c

/-- Customer.calculate_insolvency. The source body is two consecutive guarded
blocks; the embedding applies them in order. -/
def Customer.calculate_insolvency (c : Customer) : Customer :=
  c.insolvencyActiveBlock.insolvencyInactiveBlock

/-- Customer.calculate_compensation. -/
def Customer.calculate_compensation (c : Customer) : Customer :=
  let c1 :=
    if c.patch_month ≤ c.duration ∧ c.membership = 1 then
      let comp := c.compensation_share * c.deficit
      let cd := c.cumulative_deficit - comp
      { c with compensation_received := comp, cumulative_deficit := cd,
               cum_compensation := c.cum_compensation + comp,
               non_performing_debt := cd }
    else c
  if c1.duration < c1.patch_month ∨ c1.membership = 0 then
    { c1 with compensation_received := 0 }
  else c1

/-- Customer.calculate_debt. -/
def Customer.calculate_debt (c : Customer) : Customer :=
  if c.patch_month ≤ c.duration ∧ c.membership = 1 then
    let dv := max (c.debt - c.installment) 0
    { c with debt := dv, performing_debt := dv }
  else c

/-- Customer.check_consistency. -/
def Customer.check_consistency (c : Customer) : Customer :=
  if c.patch_month ≤ c.duration ∧ c.membership = 1 then
    { c with balance := c.installment - c.paid_installment - c.deficit }
  else c

/-- Customer.clear_vars. -/
def Customer.clear_vars (c : Customer) : Customer :=
  { c with status := 0, installment := 0, paid_contribution := 0, deficit := 0,
           paid_installment := 0, compensation_received := 0,
           additional_compensation := 0, patch_new_debt := 0, debt := 0,
           d_contribution := 0, std_contribution := 0, std_premium := 0,
           day := 0, b_risk := 0, on_time_payment := 0, late_payment := 0 }

/-- Customer.get_rating. -/
def Customer.get_rating (c : Customer) : String :=
  if 1 ≤ c.day ∧ c.day < 11 then "A"
  else if 11 ≤ c.day ∧ c.day < 20 then "B"
  else "C"

/-- The record produced by Customer.to_dict. -/
structure CustomerDict where
  id : Nat
  x : Nat
  y : Nat
  installment : ℚ
  debt : ℚ
  membership : Int
  day : Int
  rating : String
  shock : Int
  deficit : ℚ
  paid_installment : ℚ
  compensation_received : ℚ
  patch_month : Int
  duration : Int
  points : Int
  on_time_payment : Int
  late_payment : Int
deriving DecidableEq

/-- Customer.to_dict. -/
def Customer.to_dict (c : Customer) : CustomerDict :=
  { id := c.i, x := c.x, y := c.y, installment := c.installment,
    debt := c.debt, membership := c.membership, day := c.day,
    rating := c.get_rating, shock := c.shock, deficit := c.deficit,
    paid_installment := c.paid_installment,
    compensation_received := c.compensation_received,
    patch_month := c.patch_month, duration := c.duration, points := c.points,
    on_time_payment := c.on_time_payment, late_payment := c.late_payment }

/-- The Bank ledger of bank.py. -/
structure Bank where
  cash : ℚ
  receivables : ℚ
  assets : ℚ
deriving DecidableEq

/-- Bank.__init__. -/
def Bank.init : Bank := ⟨0, 0, 0⟩

/-- Bank.setup. -/
def Bank.setup (total_debt : ℚ) : Bank :=
  { cash := 0, receivables := total_debt, assets := 0 + total_debt }

/-- Bank.update. The negative-cash case only prints a warning in the source;
state is updated the same way. -/
def Bank.update (b : Bank) (total_paid_installment total_compensation
    total_new_debt performing_debt non_performing_debt : ℚ) : Bank :=
  let cash := b.cash + total_paid_installment + total_compensation - total_new_debt
  { cash := cash, receivables := performing_debt + non_performing_debt,
    assets := cash + (performing_debt + non_performing_debt) }

/-- The Fund ledger of fund.py. -/
structure Fund where
  assets : ℚ
  net_assets : ℚ
deriving DecidableEq

/-- Fund.__init__. -/
def Fund.init : Fund := ⟨100, 100⟩

/-- Fund.setup. -/
def Fund.setup (_f : Fund) : Fund := ⟨100, 100⟩

/-- Fund.update. The fund-shortfall case only prints a warning in the source;
state is updated the same way. reserve_pct is the reserve-ratio parameter of
world.py (a percentage). -/
def Fund.update (f : Fund) (total_contribution total_compensation
    reserve_pct : ℚ) : Fund :=
  let assets := f.assets + total_contribution
  { assets := assets,
    net_assets := max ((1 - reserve_pct / 100) * assets - total_compensation) 0 }

/-- The per-run parameter set, defaults as assigned in World.__init__.
compensation_pct and reserve_pct carry the compensation-ratio and
reserve-ratio parameters of the source (percent values). -/
structure Params where
  world_size : Nat := 1225
  base_rate : ℚ := 1/5
  premium_increment : ℚ := 1/10
  min_installment : ℚ := 4200
  max_installment : ℚ := 5400
  min_periods : Int := 20
  max_periods : Int := 60
  no_of_periods : Int := 90
  insolvency_risk : ℚ := 3
  unpaid_fraction : ℚ := 70
  max_day : Int := 25
  p_day_response : ℚ := 1
  premium_response : ℚ := 1
  peer_effect : ℚ := 40
  reserve_pct : ℚ := 0
  compensation_pct : ℚ := 70
  randomness : ℚ := 25
  renew_financing : Bool := true
  incentive_system : Bool := true
  adjust_compensation : Bool := true
  fix_random_seed : Bool := false
deriving DecidableEq

/-- The default parameter set of World.__init__. -/
def defaultParams : Params := {}

/-- The World state of world.py, defaults as set by World.__init__ (the
parameters live in Params; month, totals and ledgers here). The rng field is
the run-owned random stream standing in for the Python global generator. -/
structure World where
  customers : List Customer := []
  bank : Bank := Bank.init
  fund : Fund := Fund.init
  seed_number : Nat := 0
  month : Int := 0
  total_contribution : ℚ := 0
  total_deficit : ℚ := 0
  total_compensation : ℚ := 0
  total_paid_installment : ℚ := 0
  total_debt : ℚ := 0
  total_new_debt : ℚ := 0
  zero_risk_period : Int := 0
  expelled_agents : Int := 0
  cum_total_deficit : ℚ := 0
  cum_total_paid_installment : ℚ := 0
  grid_width : Nat := 0
  grid_height : Nat := 0
  rng : Rng := ⟨0⟩

/-- A freshly constructed World on which set_random_seed(seed) has run:
World() followed by World.set_random_seed. setup() has NOT run. -/
def World.initWithSeed (seed : Nat) : World :=
  { seed_number := seed, rng := rngOfSeed seed }

/-- Threads the random stream through a list traversal in creation order, as
the for-loops over self.customers do in world.py. -/
def mapRng (f : Customer → Rng → Customer × Rng) :
    List Customer → Rng → List Customer × Rng
  | [], r => ([], r)
  | c :: cs, r =>
    let h := f c r
    let t := mapRng f cs h.2
    (h.1 :: t.1, t.2)

/-- One customer of World.setup_customers: creation at grid index idx followed
by setup_financing and the status assignments. -/
def setupOneCustomer (p : Params) (gw : Nat) (idx : Nat) (r : Rng) :
    Customer × Rng :=
  let c0 := Customer.init idx (idx % gw) (idx / gw)
  let cf := c0.setup_financing p.min_installment p.max_installment
    p.min_periods p.max_periods r
  ({ cf.1 with financing_round := 1, membership := 1, status := 1 }, cf.2)

/-- The nested creation loops of World.setup_customers over the grid. -/
def buildCustomers (p : Params) (gw gh : Nat) (r : Rng) :
    List Customer × Rng :=
  (List.range (gw * gh)).foldl
    (fun acc idx =>
      let s := setupOneCustomer p gw idx acc.2
      (acc.1 ++ [s.1], s.2))
    ([], r)

/-- World._setup_neighbors: Moore neighborhood ids of the cell (x, y), in the
source loop order dx outer, dy inner. -/
def neighborIds (gw gh : Nat) (total : Nat) (x y : Nat) : List Nat :=
  (([-1, 0, 1] : List Int).map (fun dx =>
    ([-1, 0, 1] : List Int).filterMap (fun dy =>
      if dx = 0 ∧ dy = 0 then none else
      let nx := (x : Int) + dx
      let ny := (y : Int) + dy
      if 0 ≤ nx ∧ nx < (gw : Int) ∧ 0 ≤ ny ∧ ny < (gh : Int) then
        let nid := (ny * (gw : Int) + nx).toNat
        if nid < total then some nid else none
      else none))).flatten

/-- World._setup_neighbors over the whole population. -/
def setNeighbors (gw gh : Nat) (cs : List Customer) : List Customer :=
  cs.map (fun c => { c with neighbors := neighborIds gw gh cs.length c.x c.y })

/-- The per-customer body of World.setup_incentive_system. -/
def setupIncentiveOne (p : Params) (c : Customer) (r : Rng) : Customer × Rng :=
  let s1 := c.setup_payment_day p.max_day r
  let c2 := s1.1.setup_contribution p.base_rate p.premium_increment
  let s3 := c2.setup_peer_effect p.peer_effect p.randomness s1.2
  let s4 := s3.1.setup_response p.p_day_response p.premium_response
    p.randomness s3.2
  (s4.1.setup_membership, s4.2)

/-- World.setup, on a world whose stream is already seeded (the
fix_random_seed path: set_random_seed ran before setup, setup itself skips
reseeding). -/
def World.setup (p : Params) (w : World) : World :=
  let g := Nat.sqrt p.world_size
  let (cs0, r1) := buildCustomers p g g w.rng
  let cs1 := setNeighbors g g cs0
  let (cs2, r2) :=
    if p.incentive_system then mapRng (setupIncentiveOne p) cs1 r1
    else (cs1, r1)
  let td := (cs2.map Customer.debt).sum
  { w with month := 0, expelled_agents := 0, cum_total_deficit := 0,
           cum_total_paid_installment := 0, grid_width := g, grid_height := g,
           customers := cs2, total_debt := td, bank := Bank.setup td,
           fund := w.fund.setup, rng := r2 }

/-- The per-customer body of World.calculate_renew_financing; the middle
component is the contribution of this customer to total_new_debt. -/
def renewOne (p : Params) (c : Customer) (r : Rng) : Customer × ℚ × Rng :=
  if c.duration < c.patch_month ∨ c.membership = 0 then
    if p.renew_financing then
      let c1 := c.clear_vars.setup_membership
      let cf := c1.setup_financing p.min_installment p.max_installment
        p.min_periods p.max_periods r
      let c3 := { cf.1 with status := 1, financing_round := cf.1.financing_round + 1,
                            patch_new_debt := cf.1.debt,
                            count_new_debt := cf.1.count_new_debt + 1,
                            patch_month := 1 }
      ({ c3 with patch_new_debt := 0 }, c3.patch_new_debt, cf.2)
    else (c.clear_vars, 0, r)
  else (c, 0, r)

/-- The traversal of World.calculate_renew_financing, accumulating the new
debt total. -/
def renewPass (p : Params) : List Customer → Rng → List Customer × ℚ × Rng
  | [], r => ([], 0, r)
  | c :: cs, r =>
    let h := renewOne p c r
    let t := renewPass p cs h.2.2
    (h.1 :: t.1, h.2.1 + t.2.1, t.2.2)

/-- World.calculate_renew_financing. -/
def World.calculate_renew_financing (p : Params) (w : World) : World :=
  let (cs, tot, r1) := renewPass p w.customers w.rng
  { w with customers := cs, total_new_debt := tot, rng := r1 }

/-- The arena read of the live neighbor references at rating time: the pairs
(b_risk, membership) of the stored neighbor ids, looked up in the current
customer list. -/
def neighborData (cs : List Customer) (c : Customer) : List (ℚ × Int) :=
  c.neighbors.map (fun nid =>
    let n := cs.getD nid cDummy
    (n.b_risk, n.membership))

/-- The first loop of World.calculate_incentives: a sequential in-place pass,
so a later customer reads earlier customers' already-updated values. The
third component counts the expelled customers of the world-level check. -/
def ratingPass (p : Params) (cs0 : List Customer) (r0 : Rng) :
    List Customer × Rng × Int :=
  (List.range cs0.length).foldl
    (fun acc i =>
      let cs := acc.1
      let r := acc.2.1
      let ex := acc.2.2
      let c := cs.getD i cDummy
      if c.patch_month ≤ c.duration ∧ c.membership = 1 then
        let cr := c.calculate_rating p.max_day (neighborData cs c) r
        let ce := if 3 < cr.1.late_payment ∧ cr.1.membership = 1
                  then ({ cr.1 with membership := 0 }, ex + 1)
                  else (cr.1, ex)
        (cs.set i ce.1, cr.2, ce.2)
      else acc)
    (cs0, r0, 0)

/-- World.calculate_incentives. -/
def World.calculate_incentives (p : Params) (w : World) : World :=
  if ¬ p.incentive_system then w else
  let pr := ratingPass p w.customers w.rng
  let cs2 := pr.1.map (Customer.calculate_premium p.base_rate p.premium_increment)
  { w with customers := cs2, rng := pr.2.1,
           expelled_agents := w.expelled_agents + pr.2.2 }

/-- World.calculate_contribution. -/
def World.calculate_contribution (p : Params) (w : World) : World :=
  let cs := w.customers.map
    (Customer.calculate_contribution p.base_rate p.incentive_system)
  { w with customers := cs,
           total_contribution := (cs.map Customer.paid_contribution).sum }

/-- The one compensation-share scalar derived from aggregate state in
World.calculate_shares. -/
def shareScalar (p : Params) (w : World) : ℚ :=
  if w.total_deficit < w.fund.net_assets then
    if w.total_deficit / w.fund.net_assets < p.compensation_pct / 100 then 1
    else p.compensation_pct / 100
  else 0

/-- World.calculate_shares: the scalar broadcast to every customer. -/
def World.calculate_shares (p : Params) (w : World) : World :=
  let sh := shareScalar p w
  { w with customers := w.customers.map (fun c => { c with compensation_share := sh }) }

/-- World.calculate_insolvency: the shock pass, the insolvency pass, the
period totals, then calculate_shares. -/
def World.calculate_insolvency (p : Params) (w : World) : World :=
  let sp := mapRng
    (Customer.calculate_shock p.insolvency_risk p.unpaid_fraction p.randomness)
    w.customers w.rng
  let cs2 := sp.1.map Customer.calculate_insolvency
  let td := (cs2.map Customer.deficit).sum
  let tp := (cs2.map Customer.paid_installment).sum
  let w1 := { w with customers := cs2, rng := sp.2, total_deficit := td,
                     total_paid_installment := tp,
                     cum_total_paid_installment := w.cum_total_paid_installment + tp,
                     cum_total_deficit := w.cum_total_deficit + td }
  w1.calculate_shares p

/-- The zero-assignment loops of World.adjust_compensations. -/
def noAddComp (c : Customer) : Customer :=
  { c with additional_compensation := 0 }

/-- The per-customer body of the surplus branch of World.adjust_compensations:
the share assignment (sum + 1 in the denominator, as the source divides by
sum_cum_deficit + 1), then the guarded catch-up update. The activity test
reads the same fields whether checked before or after the share assignment. -/
def adjustOne (sumCd surplus : ℚ) (c : Customer) : Customer :=
  let sh := if 0 < sumCd then c.cumulative_deficit / (sumCd + 1) else 0
  if c.patch_month ≤ c.duration ∧ c.membership = 1 then
    let add := min (sh * surplus) c.cumulative_deficit
    let cd0 := c.cumulative_deficit - add
    let cd := if cd0 < 0 then 0 else cd0
    { c with share := sh, additional_compensation := add,
             cumulative_deficit := cd,
             cum_compensation := c.cum_compensation + add,
             non_performing_debt := cd }
  else { c with share := sh, additional_compensation := 0 }

/-- World.adjust_compensations. -/
def World.adjust_compensations (p : Params) (w : World) : World :=
  if ¬ p.adjust_compensation then
    { w with customers := w.customers.map noAddComp }
  else
  let sumCd := (w.customers.map Customer.cumulative_deficit).sum
  if sumCd < w.fund.net_assets then
    let surplus := w.fund.net_assets - sumCd
    { w with customers := w.customers.map (adjustOne sumCd surplus) }
  else
    { w with customers := w.customers.map noAddComp }

/-- World.calculate_compensation: the per-customer compensation, the catch-up
adjustment, then the period total. -/
def World.calculate_compensation (p : Params) (w : World) : World :=
  let cs := w.customers.map Customer.calculate_compensation
  let w1 := World.adjust_compensations p { w with customers := cs }
  { w1 with total_compensation :=
      (w1.customers.map Customer.compensation_received).sum
      + (w1.customers.map Customer.additional_compensation).sum }

/-- World.calculate_debt. -/
def World.calculate_debt (w : World) : World :=
  { w with customers := w.customers.map Customer.calculate_debt }

/-- World.calculate_fund. -/
def World.calculate_fund (p : Params) (w : World) : World :=
  let f := w.fund.update w.total_contribution w.total_compensation p.reserve_pct
  { w with fund := f }

/-- World.calculate_bank. -/
def World.calculate_bank (w : World) : World :=
  let perf := (w.customers.map Customer.performing_debt).sum
  let nperf := (w.customers.map Customer.non_performing_debt).sum
  let b := w.bank.update w.total_paid_installment w.total_compensation
    w.total_new_debt perf nperf
  { w with bank := b }

/-- World.check_consistency. -/
def World.check_consistency (w : World) : World :=
  { w with customers := w.customers.map Customer.check_consistency }

/-- World.calculate_zero_period. -/
def World.calculate_zero_period (w : World) : World :=
  let avg := if w.customers = [] then 0
             else (w.customers.map Customer.non_performing_debt).sum
                  / (w.customers.length : ℚ)
  if 0 < avg then { w with zero_risk_period := w.month } else w

/-- World.step: the ordered pass sequence; the Bool is the returned
may-continue flag. -/
def World.step (p : Params) (w : World) : World × Bool :=
  let aged := w.customers.map (fun c => { c with patch_month := c.patch_month + 1 })
  let w1 := { w with month := w.month + 1, customers := aged }
  let w2 := w1.calculate_renew_financing p
  let w3 := if p.incentive_system then w2.calculate_incentives p else w2
  let w4 := w3.calculate_contribution p
  let w5 := w4.calculate_insolvency p
  let w6 := w5.calculate_compensation p
  let w7 := w6.calculate_debt
  let w8 := w7.calculate_fund p
  let w9 := w8.calculate_bank
  let w10 := w9.check_consistency
  let w11 := w10.calculate_zero_period
  if ¬ p.renew_financing then
    if p.max_periods ≤ w11.month then (w11, false) else (w11, true)
  else
    if p.no_of_periods ≤ w11.month then (w11, false) else (w11, true)

/-- Largest element of an integer list with a default, as the Python max
with a default argument. -/
def listMaxD (l : List Int) (dflt : Int) : Int :=
  match l with
  | [] => dflt
  | v :: vs => vs.foldl max v

/-- The snapshot record returned by World.get_state, field for field. -/
structure Snapshot where
  month : Int
  seed_number : Nat
  bank : Bank
  fund : Fund
  customers_total : Nat
  customers_active : Nat
  customers_expelled : Int
  a_rated : Nat
  b_rated : Nat
  c_rated : Nat
  insolvent : Nat
  t_contribution : ℚ
  t_deficit : ℚ
  t_compensation : ℚ
  t_paid_installment : ℚ
  t_new_debt : ℚ
  t_cum_deficit : ℚ
  t_cum_paid_installment : ℚ
  avg_payment_day : ℚ
  avg_contribution_pct : ℚ
  performing_debt : ℚ
  non_performing_debt : ℚ
  zero_risk_period : Int
  mean_deficit : ℚ
  mean_compensation_received : ℚ
  mean_additional_compensation : ℚ
  mean_day : ℚ
  max_day : Int
  avg_points : ℚ
  rounds : Int
  customer_data : List CustomerDict
deriving DecidableEq

/-- World.get_state. -/
def World.get_state (w : World) : Snapshot :=
  let act := w.customers.filter (fun c => c.membership == 1)
  let n := w.customers.length
  let nq : ℚ := (n : ℚ)
  { month := w.month
    seed_number := w.seed_number
    bank := w.bank
    fund := w.fund
    customers_total := n
    customers_active := act.length
    customers_expelled := w.expelled_agents
    a_rated := (act.filter (fun c => decide (1 ≤ c.day ∧ c.day < 11))).length
    b_rated := (act.filter (fun c => decide (11 ≤ c.day ∧ c.day < 20))).length
    c_rated := (act.filter (fun c => decide (20 ≤ c.day))).length
    insolvent := (w.customers.filter (fun c => c.shock == 1)).length
    t_contribution := w.total_contribution
    t_deficit := w.total_deficit
    t_compensation := w.total_compensation
    t_paid_installment := w.total_paid_installment
    t_new_debt := w.total_new_debt
    t_cum_deficit := w.cum_total_deficit
    t_cum_paid_installment := w.cum_total_paid_installment
    avg_payment_day :=
      if act = [] then 0
      else (act.map (fun c => (c.day : ℚ))).sum / (act.length : ℚ)
    avg_contribution_pct :=
      if act = [] then 0
      else (act.map Customer.d_contribution).sum * 100 / (act.length : ℚ)
    performing_debt := (w.customers.map Customer.performing_debt).sum
    non_performing_debt := (w.customers.map Customer.non_performing_debt).sum
    zero_risk_period := w.zero_risk_period
    mean_deficit :=
      if w.customers = [] then 0 else (w.customers.map Customer.deficit).sum / nq
    mean_compensation_received :=
      if w.customers = [] then 0
      else (w.customers.map Customer.compensation_received).sum / nq
    mean_additional_compensation :=
      if w.customers = [] then 0
      else (w.customers.map Customer.additional_compensation).sum / nq
    mean_day :=
      if w.customers = [] then 0
      else (w.customers.map (fun c => (c.day : ℚ))).sum / nq
    max_day := listMaxD (w.customers.map Customer.day) 0
    avg_points :=
      if w.customers = [] then 0
      else (w.customers.map (fun c => (c.points : ℚ))).sum / nq
    rounds := listMaxD (w.customers.map Customer.financing_round) 1
    customer_data := (w.customers.take 100).map Customer.to_dict }

/-- n applications of World.step, keeping only the state. -/
def stepN (p : Params) : Nat → World → World
  | 0, w => w
  | n + 1, w => stepN p n (World.step p w).1

/-- A run with a fixed seed: set_random_seed(seed) followed by setup(). -/
def setupFromSeed (p : Params) (seed : Nat) : World :=
  World.setup p (World.initWithSeed seed)

/-- The snapshot of the run (p, seed) after k steps. -/
def snapshotAt (p : Params) (seed : Nat) (k : Nat) : Snapshot :=
  (stepN p k (setupFromSeed p seed)).get_state

/-
  Claim theorems.
-/

/-- C3: two runs constructed with identical parameters and the same fixed
seed produce identical get_state snapshots at every step index: the whole
run is a function of the parameter set and the seed, the random stream being
owned by the run and fully determined by the seed. -/
theorem identical_seed_identical_snapshots (p1 p2 : Params) (s1 s2 : Nat)
    (k : Nat) (hp : p1 = p2) (hs : s1 = s2) :
    snapshotAt p1 s1 k = snapshotAt p2 s2 k := by
  subst hp
  subst hs
  rfl

/-- C3 witness: the determinism contract at the default parameters, seed 42,
step index 3. -/
theorem identical_seed_identical_snapshots_witness :
    snapshotAt defaultParams 42 3 = snapshotAt defaultParams 42 3 :=
  identical_seed_identical_snapshots defaultParams defaultParams 42 42 3 rfl rfl

/-- C6: fund net assets are never negative: 100 after setup, and after every
update equal to max of ((1 - reserve/100) * (assets + contribution) -
compensation) and 0, where assets was first increased by the contribution,
hence nonnegative. -/
theorem fund_net_assets_never_negative (f : Fund) (tc tcomp rpct : ℚ) :
    (Fund.setup f).net_assets = 100 ∧
    (f.update tc tcomp rpct).net_assets
      = max ((1 - rpct / 100) * (f.assets + tc) - tcomp) 0 ∧
    (f.update tc tcomp rpct).assets = f.assets + tc ∧
    0 ≤ (Fund.setup f).net_assets ∧
    0 ≤ (f.update tc tcomp rpct).net_assets := by
  refine ⟨rfl, rfl, rfl, by norm_num [Fund.setup], ?_⟩
  simp only [Fund.update]
  exact le_max_right _ _

/-- C9: the rating tier is a pure total function of the payment day: equal
days give equal tiers, day 1 to 10 gives A, day 11 to 19 gives B, and every
day of at least 20 gives C. -/
theorem rating_tier_of_payment_day (c c2 : Customer) :
    (c.day = c2.day → c.get_rating = c2.get_rating) ∧
    (1 ≤ c.day → c.day ≤ 10 → c.get_rating = "A") ∧
    (11 ≤ c.day → c.day ≤ 19 → c.get_rating = "B") ∧
    (20 ≤ c.day → c.get_rating = "C") := by
  refine ⟨?_, ?_, ?_, ?_⟩
  · intro h
    unfold Customer.get_rating
    rw [h]
  · intro h1 h2
    unfold Customer.get_rating
    rw [if_pos ⟨h1, by omega⟩]
  · intro h1 h2
    unfold Customer.get_rating
    rw [if_neg (by omega), if_pos ⟨h1, by omega⟩]
  · intro h1
    unfold Customer.get_rating
    rw [if_neg (by omega), if_neg (by omega)]

/-- A customer holding only a payment day, for the C9 witness. -/
def cDay (n : Int) : Customer := { cDummy with day := n }

/-- C9 witness: the three tiers at days 5, 15 and 25. -/
theorem rating_tier_of_payment_day_witness :
    (cDay 5).get_rating = "A" ∧ (cDay 15).get_rating = "B" ∧
    (cDay 25).get_rating = "C" :=
  ⟨(rating_tier_of_payment_day (cDay 5) (cDay 5)).2.1 (by decide) (by decide),
   (rating_tier_of_payment_day (cDay 15) (cDay 15)).2.2.1 (by decide) (by decide),
   (rating_tier_of_payment_day (cDay 25) (cDay 25)).2.2.2 (by decide)⟩

/-- C10: clear_vars leaves cumulative_deficit, non_performing_debt,
cum_compensation and the shock fields unchanged while zeroing the loan and
payment fields; the whole renewal/exit pass of the world also leaves those
persistent fields unchanged, in each of its branches. -/
theorem clear_vars_preserves_persistent_fields (p : Params) (c : Customer)
    (r : Rng) :
    c.clear_vars.cumulative_deficit = c.cumulative_deficit ∧
    c.clear_vars.non_performing_debt = c.non_performing_debt ∧
    c.clear_vars.cum_compensation = c.cum_compensation ∧
    c.clear_vars.shock = c.shock ∧
    c.clear_vars.insolvency_fraction = c.insolvency_fraction ∧
    c.clear_vars.installment = 0 ∧
    c.clear_vars.debt = 0 ∧
    c.clear_vars.day = 0 ∧
    c.clear_vars.b_risk = 0 ∧
    c.clear_vars.deficit = 0 ∧
    c.clear_vars.paid_installment = 0 ∧
    c.clear_vars.paid_contribution = 0 ∧
    c.clear_vars.compensation_received = 0 ∧
    c.clear_vars.additional_compensation = 0 ∧
    c.clear_vars.d_contribution = 0 ∧
    c.clear_vars.std_contribution = 0 ∧
    c.clear_vars.std_premium = 0 ∧
    c.clear_vars.on_time_payment = 0 ∧
    c.clear_vars.late_payment = 0 ∧
    c.clear_vars.status = 0 ∧
    c.clear_vars.patch_new_debt = 0 ∧
    (renewOne p c r).1.cumulative_deficit = c.cumulative_deficit ∧
    (renewOne p c r).1.non_performing_debt = c.non_performing_debt ∧
    (renewOne p c r).1.cum_compensation = c.cum_compensation ∧
    (renewOne p c r).1.shock = c.shock := by
  refine ⟨rfl, rfl, rfl, rfl, rfl, rfl, rfl, rfl, rfl, rfl, rfl, rfl, rfl,
          rfl, rfl, rfl, rfl, rfl, rfl, rfl, rfl, ?_, ?_, ?_, ?_⟩ <;>
    · unfold renewOne
      split_ifs <;>
        simp [Customer.clear_vars, Customer.setup_membership,
              Customer.setup_financing, randint, rngNext]

/-- C8 counterexample: calling step() before setup() does not fail with a
not-initialized error anywhere in World.step; it operates on the empty
customer collection and returns an ordinary result (month advanced to 1,
population still empty, continue flag true). -/
theorem step_before_setup_returns_normally :
    (World.step defaultParams (World.initWithSeed 7)).1.month = 1 ∧
    (World.step defaultParams (World.initWithSeed 7)).1.customers = [] ∧
    (World.step defaultParams (World.initWithSeed 7)).2 = true := by
  decide

/-- C8 amended: step() and get_state() called before setup() raise no error;
get_state reports the empty population (zero customers, month 0) and step
advances the month on the empty population and returns the continue flag. -/
theorem uninitialized_ops_operate_on_empty_state :
    (World.get_state (World.initWithSeed 9)).customers_total = 0 ∧
    (World.get_state (World.initWithSeed 9)).month = 0 ∧
    (World.step defaultParams (World.initWithSeed 9)).1.month = 1 ∧
    (World.step defaultParams (World.initWithSeed 9)).1.customers = [] ∧
    (World.step defaultParams (World.initWithSeed 9)).2 = true := by
  decide

/-- C4: in every step the compensation share is the one scalar of
calculate_shares, assigned identically to every customer of the population,
equal to 1 when net assets exceed the total deficit and the deficit-to-net
ratio is below compensation_pct / 100, else to compensation_pct / 100 when
net assets still exceed the total deficit, else to 0; it lies in the unit
interval whenever the compensation percentage does lie in 0 to 100. -/
theorem compensation_share_one_scalar (p : Params) (w : World)
    (h0 : 0 ≤ p.compensation_pct) (h1 : p.compensation_pct ≤ 100) :
    (∀ c ∈ (w.calculate_shares p).customers,
        c.compensation_share = shareScalar p w) ∧
    0 ≤ shareScalar p w ∧ shareScalar p w ≤ 1 ∧
    shareScalar p w =
      (if w.total_deficit < w.fund.net_assets then
         if w.total_deficit / w.fund.net_assets < p.compensation_pct / 100
         then 1 else p.compensation_pct / 100
       else 0) := by
  refine ⟨?_, ?_, ?_, rfl⟩
  · intro c hc
    simp only [World.calculate_shares, List.mem_map] at hc
    obtain ⟨c0, _, h⟩ := hc
    rw [← h]
  · unfold shareScalar
    split_ifs
    · norm_num
    · exact div_nonneg h0 (by norm_num)
    · norm_num
  · unfold shareScalar
    split_ifs
    · norm_num
    · exact (div_le_one (by norm_num)).mpr h1
    · norm_num

/-- A list lookup with a default at an in-range index is a member. -/
theorem getD_mem_of_lt {α : Type} {l : List α} {n : Nat} (h : n < l.length)
    (d : α) : l.getD n d ∈ l := by
  induction l generalizing n with
  | nil => simp at h
  | cons a as ih =>
    cases n with
    | zero => simp [List.getD]
    | succ m =>
      simp only [List.getD_cons_succ]
      exact List.mem_cons_of_mem _ (ih (by simpa using h))

/-- A world with one customer and a pending deficit, for the C4 witness. -/
def wShares : World := { customers := [cDummy], total_deficit := 10 }

/-- C4 witness: the broadcast share at the default parameters on a world
with total deficit 10 against fund net assets 100. -/
theorem compensation_share_one_scalar_witness :
    ((wShares.calculate_shares defaultParams).customers.getD 0 cDummy).compensation_share
      = shareScalar defaultParams wShares ∧
    0 ≤ shareScalar defaultParams wShares ∧
    shareScalar defaultParams wShares ≤ 1 :=
  ⟨(compensation_share_one_scalar defaultParams wShares (by decide) (by decide)).1
      _ (getD_mem_of_lt (by decide) cDummy),
   (compensation_share_one_scalar defaultParams wShares (by decide) (by decide)).2.1,
   (compensation_share_one_scalar defaultParams wShares (by decide) (by decide)).2.2.1⟩

/-- C7: for a customer entering the membership update active and with at most
three recorded late events, the rating pass expels exactly on the transition
of the late count from 3 to 4: membership drops to 0 precisely when the late
count has just become 4, which happens precisely when the count was 3 and
this step's payment was late (points below the on-time threshold); with a
late count still below 4 the customer stays a member. The flip happens
inside calculate_membership, after the fourth late event is recorded. -/
theorem expulsion_exactly_on_fourth_late (md : Int) (c : Customer)
    (hmem : c.membership = 1) (hlate : c.late_payment ≤ 3) :
    ((c.calculate_membership md).membership = 0 ↔
       (c.calculate_membership md).late_payment = 4) ∧
    ((c.calculate_membership md).late_payment = 4 ↔
       (c.late_payment = 3 ∧ 100 - (c.day - 1) < 100 - (md - 2))) := by
  simp only [Customer.calculate_membership]
  split_ifs with h1 h2 h3 <;> simp_all <;> omega

/-- A customer one late event short of expulsion, for the C7 witness. -/
def cLate : Customer :=
  { cDummy with membership := 1, late_payment := 3, day := 25 }

/-- C7 witness: with three prior late events and a late day 25 against
max day 25, calculate_membership expels the customer. -/
theorem expulsion_exactly_on_fourth_late_witness :
    (cLate.calculate_membership 25).membership = 0 :=
  (expulsion_exactly_on_fourth_late 25 cLate rfl (by decide)).1.mpr
    ((expulsion_exactly_on_fourth_late 25 cLate rfl (by decide)).2.mpr
      ⟨rfl, by decide⟩)

/-- Customer.calculate_insolvency does not change the activity fields. -/
theorem calculate_insolvency_frame (c : Customer) :
    c.calculate_insolvency.patch_month = c.patch_month ∧
    c.calculate_insolvency.duration = c.duration ∧
    c.calculate_insolvency.membership = c.membership ∧
    c.calculate_insolvency.installment = c.installment := by
  unfold Customer.calculate_insolvency Customer.insolvencyActiveBlock
    Customer.insolvencyInactiveBlock
  split_ifs <;> exact ⟨rfl, rfl, rfl, rfl⟩

/-- For an active in-term customer, Customer.calculate_insolvency makes
installment equal paid_installment plus deficit. -/
theorem calculate_insolvency_balance_aux (c : Customer)
    (hpm : c.patch_month ≤ c.duration) (hmem : c.membership = 1) :
    c.calculate_insolvency.installment
      = c.calculate_insolvency.paid_installment
        + c.calculate_insolvency.deficit := by
  unfold Customer.calculate_insolvency Customer.insolvencyActiveBlock
    Customer.insolvencyInactiveBlock
  split_ifs with h1 h2 h3
  · exfalso
    dsimp only at h2
    omega
  · show c.installment
      = c.installment - (c.shock : ℚ) * c.insolvency_fraction * c.installment
        + (c.shock : ℚ) * c.insolvency_fraction * c.installment
    ring
  · exact absurd ⟨hpm, hmem⟩ h1
  · exact absurd ⟨hpm, hmem⟩ h1

/-- A member of the output of a stream-threaded traversal is the image of a
member of the input under the traversed function at some stream state. -/
theorem mem_mapRng {f : Customer → Rng → Customer × Rng} :
    ∀ {l : List Customer} {r : Rng} {c : Customer},
      c ∈ (mapRng f l r).1 → ∃ c0 r0, c0 ∈ l ∧ c = (f c0 r0).1 := by
  intro l
  induction l with
  | nil => intro r c h; simp [mapRng] at h
  | cons a as ih =>
    intro r c h
    simp only [mapRng, List.mem_cons] at h
    rcases h with h | h
    · exact ⟨a, r, List.mem_cons_self a as, h⟩
    · obtain ⟨c0, r0, hc0, he⟩ := ih h
      exact ⟨c0, r0, List.mem_cons_of_mem a hc0, he⟩

/-- C5: after the step's insolvency pass (shock roll, insolvency update,
period totals and share broadcast), every customer that is within its loan
term and active satisfies installment = paid_installment + deficit exactly
(the embedding works in rationals, so the floating tolerance is equality). -/
theorem insolvency_pass_balance (p : Params) (w : World) (c : Customer)
    (hc : c ∈ (w.calculate_insolvency p).customers)
    (hpm : c.patch_month ≤ c.duration) (hmem : c.membership = 1) :
    c.installment = c.paid_installment + c.deficit := by
  simp only [World.calculate_insolvency, World.calculate_shares,
    List.mem_map] at hc
  obtain ⟨c2, hc2, hce⟩ := hc
  obtain ⟨c1, _, hc1e⟩ := hc2
  subst hce
  subst hc1e
  simp only at hpm hmem ⊢
  obtain ⟨f1, f2, f3, _⟩ := calculate_insolvency_frame c1
  rw [f1, f2] at hpm
  rw [f3] at hmem
  exact calculate_insolvency_balance_aux c1 hpm hmem

/-- An active in-term customer for the C5 witness world. -/
def cIns : Customer :=
  { cDummy with installment := 100, duration := 10, patch_month := 2,
                membership := 1 }

/-- A one-customer world entering the insolvency pass, for the C5 witness. -/
def wIns : World := { customers := [cIns], rng := rngOfSeed 5 }

/-- C5 witness: the balance identity for the concrete customer produced by
the insolvency pass on wIns. -/
theorem insolvency_pass_balance_witness :
    ((wIns.calculate_insolvency defaultParams).customers.getD 0 cDummy).installment
      = ((wIns.calculate_insolvency defaultParams).customers.getD 0 cDummy).paid_installment
        + ((wIns.calculate_insolvency defaultParams).customers.getD 0 cDummy).deficit :=
  insolvency_pass_balance defaultParams wIns _
    (getD_mem_of_lt (by decide) cDummy) (by decide) (by decide)

/-- A floor written as a guarded if equals a max. -/
theorem if_lt_eq_max (x m : ℚ) : (if x < m then m else x) = max m x := by
  split_ifs with h
  · exact (max_eq_left h.le).symm
  · exact (max_eq_right (not_lt.mp h)).symm

/-- Customer.calculate_payment_day changes only p_day. -/
theorem calculate_payment_day_frame (md : Int) (c : Customer) (r : Rng) :
    (c.calculate_payment_day md r).1.alpha_1 = c.alpha_1 ∧
    (c.calculate_payment_day md r).1.alpha_2 = c.alpha_2 ∧
    (c.calculate_payment_day md r).1.std_premium = c.std_premium ∧
    (c.calculate_payment_day md r).1.lamda = c.lamda ∧
    (c.calculate_payment_day md r).1.b_risk = c.b_risk :=
  ⟨rfl, rfl, rfl, rfl, rfl⟩

/-- Customer.calculate_membership changes none of p_day, day and b_risk. -/
theorem calculate_membership_frame (md : Int) (c : Customer) :
    (c.calculate_membership md).p_day = c.p_day ∧
    (c.calculate_membership md).day = c.day ∧
    (c.calculate_membership md).b_risk = c.b_risk := by
  simp only [Customer.calculate_membership]
  split_ifs <;> exact ⟨rfl, rfl, rfl⟩

/-- Stated from the claim of C1 for comparison: the peer term as the mean
behavioral risk of the active neighbors, falling back to the customer's own
behavioral risk when the customer has no active neighbors. -/
def claimedPeerTerm (nbrs : List (ℚ × Int)) (self : ℚ) : ℚ :=
  let act := nbrs.filter (fun q => q.2 == 1)
  if act = [] then self
  else (act.map Prod.fst).sum / (act.length : ℚ)

/-- An active customer with full peer weight and silent responses, exposing
the peer term of the behavioral-risk blend. -/
def cRate : Customer :=
  { cDummy with patch_month := 1, duration := 10, membership := 1, d := 10,
                lamda := 1, alpha_1 := 0, alpha_2 := 0, std_premium := 0,
                b_risk := 3/5 }

/-- One active neighbor with behavioral risk one half, one inactive
neighbor: the source divides the active sum by the total neighbor count. -/
def nbrsEx : List (ℚ × Int) := [(1/2, 1), (9/10, 0)]

/-- The code peer term at the concrete neighborhood nbrsEx: the active sum
one half divided by the total neighbor count two. -/
theorem codePeerTerm_at_nbrsEx : codePeerTerm nbrsEx cRate.b_risk = 1/4 := by
  norm_num [codePeerTerm, nbrsEx, cRate, cDummy, Customer.init, List.filter_cons]
  exact List.cons_ne_nil _ _

/-- The claim peer term at the concrete neighborhood nbrsEx: the mean over
the single active neighbor, one half. -/
theorem claimedPeerTerm_at_nbrsEx : claimedPeerTerm nbrsEx cRate.b_risk = 1/2 := by
  norm_num [claimedPeerTerm, nbrsEx, cRate, cDummy, Customer.init, List.filter_cons]

/-- The behavioral-risk and payment-day outputs of calculate_rating for an
active in-term customer, with the floor written as the source writes it. -/
theorem rating_b_risk_formula (md : Int) (nbrs : List (ℚ × Int)) (c : Customer)
    (r : Rng) (hpm : c.patch_month ≤ c.duration) (hmem : c.membership = 1) :
    (c.calculate_rating md nbrs r).1.b_risk
      = (fun blend => if blend < 1/30 then 1/30 else blend)
          ((1 - c.lamda)
             * (c.alpha_1 * (((c.calculate_rating md nbrs r).1.p_day : ℚ) / 30)
                - c.alpha_2 * c.std_premium)
           + c.lamda * codePeerTerm nbrs c.b_risk) ∧
    (c.calculate_rating md nbrs r).1.day
      = pyRound ((c.calculate_rating md nbrs r).1.b_risk * 30) := by
  unfold Customer.calculate_rating
  rw [if_neg (show ¬(c.duration < c.patch_month ∨ c.membership = 0) by omega)]
  simp only [Customer.calculate_payment_day, Customer.calculate_membership]
  split_ifs <;> exact ⟨rfl, rfl⟩

/-- C1 counterexample: with one active neighbor (risk one half) and one
inactive neighbor, the claim predicts a peer term of one half (mean over
active neighbors), but calculate_rating divides the active sum by the total
neighbor count, yielding one quarter, so the resulting behavioral risk (one
quarter) differs from the blend the claim predicts (one half). -/
theorem rating_peer_term_claim_ce :
    (cRate.calculate_rating 25 nbrsEx (rngOfSeed 3)).1.b_risk
      ≠ (fun blend => if blend < 1/30 then 1/30 else blend)
          ((1 - cRate.lamda)
             * (cRate.alpha_1
                  * (((cRate.calculate_rating 25 nbrsEx (rngOfSeed 3)).1.p_day : ℚ) / 30)
                - cRate.alpha_2 * cRate.std_premium)
           + cRate.lamda * claimedPeerTerm nbrsEx cRate.b_risk) := by
  rw [(rating_b_risk_formula 25 nbrsEx cRate (rngOfSeed 3) (by decide) (by decide)).1,
    codePeerTerm_at_nbrsEx, claimedPeerTerm_at_nbrsEx]
  norm_num [cRate, cDummy, Customer.init]

/-- C1 amended: for an active in-term customer the rating pass blends the
self term with the peer term d2 of the source, where d2 is the sum of the
active neighbors' behavioral risks divided by the total neighbor count
(falling back to the customer's own risk only when the neighbor list is
empty), floors the blend at 1/30 (written as a max), and derives the new
payment day by rounding the new behavioral risk times 30. -/
theorem rating_blend_amended (md : Int) (nbrs : List (ℚ × Int)) (c : Customer)
    (r : Rng) (hpm : c.patch_month ≤ c.duration) (hmem : c.membership = 1) :
    (c.calculate_rating md nbrs r).1.b_risk
      = max (1/30)
          ((1 - c.lamda)
             * (c.alpha_1 * (((c.calculate_rating md nbrs r).1.p_day : ℚ) / 30)
                - c.alpha_2 * c.std_premium)
           + c.lamda * codePeerTerm nbrs c.b_risk) ∧
    (c.calculate_rating md nbrs r).1.day
      = pyRound ((c.calculate_rating md nbrs r).1.b_risk * 30) := by
  unfold Customer.calculate_rating
  rw [if_neg (show ¬(c.duration < c.patch_month ∨ c.membership = 0) by omega)]
  simp only [Customer.calculate_payment_day, Customer.calculate_membership,
    if_lt_eq_max]
  split_ifs <;> exact ⟨rfl, rfl⟩

/-- C1 witness: the amended blend at the concrete customer cRate with one
active and one inactive neighbor. -/
theorem rating_blend_amended_witness :
    (cRate.calculate_rating 25 nbrsEx (rngOfSeed 3)).1.b_risk
      = max (1/30)
          ((1 - cRate.lamda)
             * (cRate.alpha_1
                  * (((cRate.calculate_rating 25 nbrsEx (rngOfSeed 3)).1.p_day : ℚ) / 30)
                - cRate.alpha_2 * cRate.std_premium)
           + cRate.lamda * codePeerTerm nbrsEx cRate.b_risk) ∧
    (cRate.calculate_rating 25 nbrsEx (rngOfSeed 3)).1.day
      = pyRound ((cRate.calculate_rating 25 nbrsEx (rngOfSeed 3)).1.b_risk * 30) :=
  rating_blend_amended 25 nbrsEx cRate (rngOfSeed 3) (by decide) (by decide)

/-- A list lookup with a default commutes with map at an in-range index. -/
theorem getD_map_of_lt {A B : Type} (f : A → B) (l : List A) (i : Nat)
    (d : B) (d2 : A) (hi : i < l.length) :
    (l.map f).getD i d = f (l.getD i d2) := by
  induction l generalizing i with
  | nil => simp at hi
  | cons a as ih =>
    cases i with
    | zero => simp [List.getD]
    | succ m =>
      simp only [List.map_cons, List.getD_cons_succ]
      exact ih m (by simpa using hi)

/-- An active customer holding one unit of cumulative deficit, for the C2
theorems. -/
def cC2 : Customer :=
  { cDummy with patch_month := 1, duration := 10, membership := 1,
                cumulative_deficit := 1 }

/-- A one-customer world whose fund net assets (two) exceed the one unit of
outstanding cumulative deficit, for the C2 theorems. -/
def wC2 : World := { customers := [cC2], fund := ⟨2, 2⟩ }

/-- The catch-up update of an active customer in the surplus branch: the
additional compensation is the share (deficit over sum-plus-one) times the
surplus, capped at the customer's own remaining cumulative deficit, and the
cumulative deficit and non-performing debt are reduced accordingly. -/
theorem adjustOne_active (sumCd surplus : ℚ) (c : Customer)
    (hact : c.patch_month ≤ c.duration ∧ c.membership = 1) (hpos : 0 < sumCd) :
    (adjustOne sumCd surplus c).additional_compensation
      = min ((c.cumulative_deficit / (sumCd + 1)) * surplus)
            c.cumulative_deficit ∧
    (adjustOne sumCd surplus c).cumulative_deficit
      = (if c.cumulative_deficit
             - min ((c.cumulative_deficit / (sumCd + 1)) * surplus)
                   c.cumulative_deficit < 0
         then 0
         else c.cumulative_deficit
             - min ((c.cumulative_deficit / (sumCd + 1)) * surplus)
                   c.cumulative_deficit) ∧
    (adjustOne sumCd surplus c).non_performing_debt
      = (adjustOne sumCd surplus c).cumulative_deficit ∧
    (adjustOne sumCd surplus c).cum_compensation
      = c.cum_compensation
        + min ((c.cumulative_deficit / (sumCd + 1)) * surplus)
              c.cumulative_deficit := by
  simp only [adjustOne]
  rw [if_pos hpos, if_pos hact]
  exact ⟨rfl, rfl, rfl, rfl⟩

/-- An inactive customer gets no catch-up compensation in the surplus
branch. -/
theorem adjustOne_inactive (sumCd surplus : ℚ) (c : Customer)
    (hnact : ¬(c.patch_month ≤ c.duration ∧ c.membership = 1)) :
    (adjustOne sumCd surplus c).additional_compensation = 0 := by
  simp only [adjustOne]
  rw [if_neg hnact]

/-- C2 counterexample: one active customer with cumulative deficit one, fund
net assets two, adjust_compensation enabled. The claim's pro-rata formula
(deficit over the total cumulative deficit, times the surplus, capped at the
deficit) gives one, but adjust_compensations divides by the total plus one
and grants only one half. -/
theorem adjust_pro_rata_claim_ce :
    ((wC2.adjust_compensations defaultParams).customers.getD 0 cDummy).additional_compensation
      = 1/2 ∧
    min (((wC2.customers.getD 0 cDummy).cumulative_deficit
           / ((wC2.customers.map Customer.cumulative_deficit).sum))
         * (wC2.fund.net_assets
            - (wC2.customers.map Customer.cumulative_deficit).sum))
        ((wC2.customers.getD 0 cDummy).cumulative_deficit) = 1 ∧
    (1/2 : ℚ) ≠ 1 := by
  refine ⟨?_, ?_, by norm_num⟩
  · norm_num [World.adjust_compensations, adjustOne, wC2, cC2, defaultParams,
      cDummy, Customer.init, min_def]
  · norm_num [wC2, cC2, cDummy, Customer.init, min_def]

/-- C2 amended: when adjust_compensation is enabled, in the surplus branch
(fund net assets exceeding the total cumulative deficit, that total being
positive) every active customer's additional compensation equals the fund
surplus times the customer's cumulative deficit divided by the total
cumulative deficit PLUS ONE (the source divides by sum_cum_deficit + 1, not
by the sum), capped at the customer's own remaining cumulative deficit, and
the non-performing debt is set to the reduced cumulative deficit; inactive
customers, and every customer when the fund does not exceed the total, get
zero additional compensation. -/
theorem adjust_compensations_amended (p : Params) (w : World) (i : Nat)
    (hA : p.adjust_compensation = true) (hi : i < w.customers.length) :
    ((w.customers.map Customer.cumulative_deficit).sum < w.fund.net_assets →
      0 < (w.customers.map Customer.cumulative_deficit).sum →
      ((w.customers.getD i cDummy).patch_month
          ≤ (w.customers.getD i cDummy).duration
        ∧ (w.customers.getD i cDummy).membership = 1) →
      (((w.adjust_compensations p).customers.getD i cDummy).additional_compensation
         = min (((w.customers.getD i cDummy).cumulative_deficit
                  / ((w.customers.map Customer.cumulative_deficit).sum + 1))
                * (w.fund.net_assets
                   - (w.customers.map Customer.cumulative_deficit).sum))
               ((w.customers.getD i cDummy).cumulative_deficit) ∧
       ((w.adjust_compensations p).customers.getD i cDummy).non_performing_debt
         = ((w.adjust_compensations p).customers.getD i cDummy).cumulative_deficit)) ∧
    ((w.customers.map Customer.cumulative_deficit).sum < w.fund.net_assets →
      ¬((w.customers.getD i cDummy).patch_month
          ≤ (w.customers.getD i cDummy).duration
        ∧ (w.customers.getD i cDummy).membership = 1) →
      ((w.adjust_compensations p).customers.getD i cDummy).additional_compensation
        = 0) ∧
    (¬((w.customers.map Customer.cumulative_deficit).sum < w.fund.net_assets) →
      ((w.adjust_compensations p).customers.getD i cDummy).additional_compensation
        = 0) := by
  unfold World.adjust_compensations
  rw [if_neg (by simp [hA])]
  refine ⟨?_, ?_, ?_⟩
  · intro hS hpos hact
    rw [if_pos hS]
    dsimp only
    rw [getD_map_of_lt _ _ _ _ cDummy hi]
    have h := adjustOne_active
      ((w.customers.map Customer.cumulative_deficit).sum)
      (w.fund.net_assets - (w.customers.map Customer.cumulative_deficit).sum)
      (w.customers.getD i cDummy) hact hpos
    exact ⟨h.1, h.2.2.1⟩
  · intro hS hnact
    rw [if_pos hS]
    dsimp only
    rw [getD_map_of_lt _ _ _ _ cDummy hi]
    exact adjustOne_inactive _ _ _ hnact
  · intro hS
    rw [if_neg hS]
    dsimp only
    rw [getD_map_of_lt _ _ _ _ cDummy hi]
    rfl

/-- C2 witness: the amended catch-up formula at the concrete world wC2. -/
theorem adjust_compensations_amended_witness :
    (((wC2.adjust_compensations defaultParams).customers.getD 0 cDummy).additional_compensation
       = min (((wC2.customers.getD 0 cDummy).cumulative_deficit
                / ((wC2.customers.map Customer.cumulative_deficit).sum + 1))
              * (wC2.fund.net_assets
                 - (wC2.customers.map Customer.cumulative_deficit).sum))
             ((wC2.customers.getD 0 cDummy).cumulative_deficit) ∧
     ((wC2.adjust_compensations defaultParams).customers.getD 0 cDummy).non_performing_debt
       = ((wC2.adjust_compensations defaultParams).customers.getD 0 cDummy).cumulative_deficit) :=
  (adjust_compensations_amended defaultParams wC2 0 rfl (by decide)).1
    (by norm_num [wC2, cC2, cDummy, Customer.init])
    (by norm_num [wC2, cC2, cDummy, Customer.init])
    (by decide)

end SCMS
